import Mathlib

/-!
Verification of the build-preparation script
`src/test-new-init/programs/zisk/build.rs`.

The script does three things, in order:
1. prints the line `cargo:rerun-if-changed=inputs/` on standard output;
2. checks whether a filesystem entry named `build` exists relative to the
   current working directory;
3. if it does not, calls `fs::create_dir("build").unwrap()`, which creates
   the directory or aborts the process with the underlying OS error.

We embed the script as a pure function over an explicit filesystem state
(a map from relative path strings to entries) together with an oracle
describing whether the operating system would let the directory creation
succeed.  The run produces an ordered trace of observable events (printed
lines and filesystem operations), a resulting filesystem, and an exit
outcome (clean exit or panic carrying an OS error).
-/

namespace BuildRs

/-- Filesystem entry: a regular file with its contents, or a directory.
Directory contents live at their own paths in the map. -/
inductive Entry where
  | file (data : List Nat)
  | dir
  deriving DecidableEq, Repr

/-- Filesystem state: a map from relative path strings to entries
(`none` means no entry exists at that path). -/
def FS : Type := String → Option Entry

/-- Operating-system errors that `fs::create_dir` can surface. -/
inductive OsError where
  | alreadyExists
  | permissionDenied
  | other (code : Nat)
  deriving DecidableEq, Repr

/-- Exit outcome of a run: clean success, or a panic (from `unwrap`)
carrying the OS error that caused it. -/
inductive Outcome where
  | success
  | panicked (e : OsError)
  deriving DecidableEq, Repr

/-- Process exit status: 0 on success, Rust's panic status 101 otherwise. -/
def Outcome.exitCode : Outcome → Nat
  | Outcome.success => 0
  | Outcome.panicked _ => 101

/-- Observable events of a run, in order: a line printed to standard
output, an existence check of a path, or a directory-creation call. -/
inductive Event where
  | println (s : String)
  | existsCheck (p : String)
  | createDir (p : String)
  deriving DecidableEq, Repr

/-- Which filesystem path an event touches (`none` for printed lines). -/
def Event.touchedPath : Event → Option String
  | Event.println _ => none
  | Event.existsCheck p => some p
  | Event.createDir p => some p

/-- Result of one invocation: the ordered event trace, the resulting
filesystem, and the exit outcome. -/
structure RunResult where
  events : List Event
  fs : FS
  exit : Outcome

/-- Lines the run printed to standard output, in order. -/
def RunResult.stdoutLines (r : RunResult) : List String :=
  r.events.filterMap fun e =>
    match e with
    | Event.println s => some s
    | _ => none

/-- Embedding of `Path::exists`: true iff some entry (file or directory,
unchecked which) exists at the path. -/
def path_exists (fs : FS) (p : String) : Bool :=
  (fs p).isSome

/-- Embedding of `fs::create_dir`: fails with `AlreadyExists` if an entry
is already present at the path; otherwise fails with the oracle's error
when the OS refuses (e.g. permissions), and otherwise adds an empty
directory at exactly that path. -/
def create_dir (fs : FS) (osFail : Option OsError) (p : String) : Except OsError FS :=
  if (fs p).isSome then
    Except.error OsError.alreadyExists
  else
    match osFail with
    | some e => Except.error e
    | none => Except.ok (fun q => if q = p then some Entry.dir else fs q)

/-- Embedding of `main` from `build.rs`.  The process receives
command-line arguments and an environment (the source imports `std::env`
but never reads either), the ambient filesystem, and the OS oracle for
the creation call.  Mirrors the source line by line: print the rerun
directive, bind `build_dir = "build"`, check existence, and create the
directory (unwrapping the result) only when the check reported absence. -/
def main (_args : List String) (_env : String → Option String)
    (fs : FS) (osFail : Option OsError) : RunResult :=
  let events := [Event.println "cargo:rerun-if-changed=inputs/"]
  let build_dir := "build"
  let events := events ++ [Event.existsCheck build_dir]
  if !path_exists fs build_dir then
    match create_dir fs osFail build_dir with
    | Except.ok fs2 =>
        { events := events ++ [Event.createDir build_dir], fs := fs2,
          exit := Outcome.success }
    | Except.error e =>
        { events := events ++ [Event.createDir build_dir], fs := fs,
          exit := Outcome.panicked e }
  else
    { events := events, fs := fs, exit := Outcome.success }

/-- An empty filesystem, used as a concrete test state. -/
def fsEmpty : FS := fun _ => none

/-- A filesystem whose only entry is a directory named `build`. -/
def fsWithDir : FS := fun p => if p = "build" then some Entry.dir else none

/-- A filesystem whose only entry is a regular file named `build`. -/
def fsWithFile : FS :=
  fun p => if p = "build" then some (Entry.file [1, 2]) else none

/-- An empty environment, used in concrete witnesses. -/
def envEmpty : String → Option String := fun _ => none

/-- C1: whenever no filesystem entry named `build` exists beforehand and
the run exits successfully, afterwards `build` exists and is a
directory. -/
theorem c1_success_creates_build_dir (args : List String)
    (env : String → Option String) (fs : FS) (osFail : Option OsError)
    (h : fs "build" = none)
    (hs : (main args env fs osFail).exit = Outcome.success) :
    (main args env fs osFail).fs "build" = some Entry.dir := by
  cases osFail with
  | none => simp [main, create_dir, path_exists, h]
  | some e => simp [main, create_dir, path_exists, h] at hs

/-- Witness for C1 at the empty filesystem with a permissive OS. -/
theorem c1_witness :
    (main [] envEmpty fsEmpty none).fs "build" = some Entry.dir :=
  c1_success_creates_build_dir [] envEmpty fsEmpty none rfl rfl

/-- C2: whenever `build` already exists as a directory beforehand, the
run modifies no path, exits successfully, and rerunning from the
resulting state yields the identical result (idempotence). -/
theorem c2_existing_dir_idempotent (args : List String)
    (env : String → Option String) (fs : FS) (osFail : Option OsError)
    (h : fs "build" = some Entry.dir) :
    (∀ p, (main args env fs osFail).fs p = fs p) ∧
      (main args env fs osFail).exit = Outcome.success ∧
      main args env (main args env fs osFail).fs osFail =
        main args env fs osFail := by
  have hfs : (main args env fs osFail).fs = fs := by
    simp [main, path_exists, h]
  refine ⟨fun p => by rw [hfs], ?_, by rw [hfs]⟩
  simp [main, path_exists, h]

/-- Witness for C2 at a filesystem holding only the directory `build`. -/
theorem c2_witness :
    (main [] envEmpty fsWithDir none).fs "other" = fsWithDir "other" :=
  (c2_existing_dir_idempotent [] envEmpty fsWithDir none rfl).1 "other"

/-- C3: whenever any entry (directory or plain file alike) exists at
`build` beforehand, the trace is just the printed directive and the
existence check — no creation call — every path is unchanged, and the
run exits successfully. -/
theorem c3_any_existing_entry_skips_creation (args : List String)
    (env : String → Option String) (fs : FS) (osFail : Option OsError)
    (h : (fs "build").isSome = true) :
    (main args env fs osFail).events =
        [Event.println "cargo:rerun-if-changed=inputs/",
         Event.existsCheck "build"] ∧
      (∀ p, (main args env fs osFail).fs p = fs p) ∧
      (main args env fs osFail).exit = Outcome.success := by
  simp [main, path_exists, h]

/-- Witness for C3 at a filesystem holding a plain file named `build`. -/
theorem c3_witness :
    (main [] envEmpty fsWithFile none).exit = Outcome.success :=
  (c3_any_existing_entry_skips_creation [] envEmpty fsWithFile none
    rfl).2.2

/-- C4: whenever the creation call is reached (the entry was absent) and
the OS makes it fail, the run panics with a nonzero exit status carrying
exactly the underlying OS error, makes exactly one creation attempt, and
leaves every path — in particular `build` — unchanged. -/
theorem c4_creation_failure_is_fatal_and_clean (args : List String)
    (env : String → Option String) (fs : FS) (e : OsError)
    (h : fs "build" = none) :
    (main args env fs (some e)).exit = Outcome.panicked e ∧
      (main args env fs (some e)).exit.exitCode ≠ 0 ∧
      (∀ p, (main args env fs (some e)).fs p = fs p) ∧
      (main args env fs (some e)).fs "build" = none ∧
      ((main args env fs (some e)).events.filter
          (fun ev => ev = Event.createDir "build")).length = 1 := by
  refine ⟨?_, ?_, ?_, ?_, ?_⟩ <;>
    simp [main, create_dir, path_exists, h, Outcome.exitCode,
      List.filter]

/-- Witness for C4 at the empty filesystem with a permission failure. -/
theorem c4_witness :
    (main [] envEmpty fsEmpty (some OsError.permissionDenied)).exit =
      Outcome.panicked OsError.permissionDenied :=
  (c4_creation_failure_is_fatal_and_clean [] envEmpty fsEmpty
    OsError.permissionDenied rfl).1

/-- C5: every run, from every filesystem state and OS behaviour, prints
exactly one line on standard output, the literal
`cargo:rerun-if-changed=inputs/`. -/
theorem c5_directive_printed_exactly_once (args : List String)
    (env : String → Option String) (fs : FS) (osFail : Option OsError) :
    (main args env fs osFail).stdoutLines =
      ["cargo:rerun-if-changed=inputs/"] := by
  cases hb : (fs "build") with
  | none =>
      cases osFail <;>
        simp [main, create_dir, path_exists, hb, RunResult.stdoutLines,
          List.filterMap]
  | some entry =>
      simp [main, path_exists, hb, RunResult.stdoutLines,
        List.filterMap]

/-- C6: because existence is checked immediately before the creation
call, the run never panics with an already-exists error, provided no
concurrent process modifies the filesystem between the check and the
call (modelled as: the OS oracle does not spuriously report
already-exists for an absent entry). -/
theorem c6_already_exists_branch_unreachable (args : List String)
    (env : String → Option String) (fs : FS) (osFail : Option OsError)
    (h : osFail ≠ some OsError.alreadyExists) :
    (main args env fs osFail).exit ≠
      Outcome.panicked OsError.alreadyExists := by
  cases hb : (fs "build") with
  | none =>
      cases osFail with
      | none => simp [main, create_dir, path_exists, hb]
      | some e =>
          have he : e ≠ OsError.alreadyExists := fun hc => h (by rw [hc])
          simp [main, create_dir, path_exists, hb, he]
  | some entry => simp [main, path_exists, hb]

/-- Witness for C6 at the empty filesystem with a permissive OS. -/
theorem c6_witness :
    (main [] envEmpty fsEmpty none).exit ≠
      Outcome.panicked OsError.alreadyExists :=
  c6_already_exists_branch_unreachable [] envEmpty fsEmpty none
    (by simp)

/-- C7: on every run the event order is fixed — first the printed
directive, then the existence check of `build`, then a creation call
exactly when the check reported absence — so the directive has already
been printed on every run, including ones that end in a panic. -/
theorem c7_event_order (args : List String)
    (env : String → Option String) (fs : FS) (osFail : Option OsError) :
    (main args env fs osFail).events =
      Event.println "cargo:rerun-if-changed=inputs/" ::
        Event.existsCheck "build" ::
          (if (fs "build").isSome then [] else [Event.createDir "build"]) := by
  cases hb : (fs "build") with
  | none => cases osFail <;> simp [main, create_dir, path_exists, hb]
  | some entry => simp [main, path_exists, hb]

/-- C8: every filesystem operation in the trace touches only the path
`build`, every other path maps to the same entry after the run as
before, and the result is independent of the environment and the
command-line arguments (so neither is consumed). -/
theorem c8_frame_only_build_path (args : List String)
    (env : String → Option String) (fs : FS) (osFail : Option OsError) :
    (∀ e, e ∈ (main args env fs osFail).events →
        e.touchedPath = none ∨ e.touchedPath = some "build") ∧
      (∀ p, p ≠ "build" → (main args env fs osFail).fs p = fs p) ∧
      (∀ args2 env2, main args2 env2 fs osFail = main args env fs osFail) := by
  refine ⟨?_, ?_, fun args2 env2 => rfl⟩
  · intro e he
    cases hb : (fs "build") with
    | none =>
        cases osFail <;>
          simp [main, create_dir, path_exists, hb] at he <;>
          rcases he with h | h | h <;>
          simp [h, Event.touchedPath]
    | some entry =>
        simp [main, path_exists, hb] at he
        rcases he with h | h <;> simp [h, Event.touchedPath]
  · intro p hp
    cases hb : (fs "build") with
    | none =>
        cases osFail with
        | none => simp [main, create_dir, path_exists, hb, hp]
        | some e => simp [main, create_dir, path_exists, hb]
    | some entry => simp [main, path_exists, hb]

/-- Witness for C8 at the empty filesystem, read off at another path. -/
theorem c8_witness :
    (main [] envEmpty fsEmpty none).fs "other" = fsEmpty "other" :=
  (c8_frame_only_build_path [] envEmpty fsEmpty none).2.1 "other"
    (by decide)

/-- C9: the run is a deterministic function of the filesystem state and
the OS behaviour alone: two runs differing only in command-line
arguments and environment produce identical traces, filesystems and
exit outcomes. -/
theorem c9_deterministic_in_fs (fs : FS) (osFail : Option OsError)
    (args1 args2 : List String) (env1 env2 : String → Option String) :
    main args1 env1 fs osFail = main args2 env2 fs osFail := rfl

/-- C10: no run ever deletes, renames, truncates or modifies an existing
entry: at every path the entry is either unchanged, or the path is
`build`, previously empty, and now holds a newly created directory. -/
theorem c10_only_mutation_is_new_build_dir (args : List String)
    (env : String → Option String) (fs : FS) (osFail : Option OsError)
    (p : String) :
    (main args env fs osFail).fs p = fs p ∨
      (p = "build" ∧ fs p = none ∧
        (main args env fs osFail).fs p = some Entry.dir) := by
  cases hb : (fs "build") with
  | none =>
      cases osFail with
      | none =>
          by_cases hp : p = "build"
          · exact Or.inr ⟨hp, by rw [hp, hb],
              by simp [main, create_dir, path_exists, hb, hp]⟩
          · exact Or.inl (by simp [main, create_dir, path_exists, hb, hp])
      | some e => exact Or.inl (by simp [main, create_dir, path_exists, hb])
  | some entry => exact Or.inl (by simp [main, path_exists, hb])

end BuildRs
